import Mathlib

/-!
Verification development for the magpie-node client library.

The two core components are modelled as a shallow embedding:
* the webhook signature verifier (src/utils/webhook.ts, class WebhookUtils);
* the HTTP request engine (src/base-client.ts, class BaseClient) together
  with the structured error type (src/errors/magpie-error.ts, class MagpieError).

JavaScript strings are modelled as lists of characters (for the webhook part,
where prefix manipulation matters) or as Lean String values (for the request
engine, where only equality of header names and literals matters).  External
Node/axios primitives that the code calls (crypto.createHmac, JSON.parse,
Date.now, Math.random, the network) are impure or live outside the repository;
each enters the model as an explicit function parameter or as an explicit
script of attempt outcomes, so every definition stays executable.
-/

deriving instance DecidableEq for Except

namespace Magpie

/-- JavaScript strings for the webhook component: a list of UTF-16 code points. -/
abbrev Str := List Char

/-- JavaScript truthiness of a string: the empty string is falsy. -/
def jsTruthy (s : Str) : Bool := !s.isEmpty

/-- JavaScript truthiness of an optional string: undefined and the empty
string are falsy. -/
def jsTruthyO : Option Str → Bool
  | none => false
  | some s => jsTruthy s

/-- The closed set of error-type tags of MagpieErrorType
(src/errors/magpie-error.ts). -/
inductive MagpieErrorType where
  | api_error
  | authentication_error
  | card_error
  | idempotency_error
  | invalid_request_error
  | rate_limit_error
  | validation_error
  | permission_error
  | network_error
  | not_found_error
  | timeout_error
  | configuration_error
deriving DecidableEq

/-- Model of the MagpieError value (src/errors/magpie-error.ts, class
MagpieError).  Fields that the constructor leaves undefined are none. -/
structure MagpieErrorM where
  message : String
  type : MagpieErrorType
  code : Option String := none
  statusCode : Option Nat := none
  requestId : Option String := none
  param : Option String := none
  docUrl : Option String := none
  declineCode : Option String := none
  chargeId : Option String := none
  headers : Option (List (String × String)) := none
deriving DecidableEq

/-! ## Webhook verifier (src/utils/webhook.ts, class WebhookUtils) -/

/-- Caller-supplied configuration overrides for webhook verification
(WebhookSignatureConfig): every field optional.  The source field named
after the signature marker is called pfx here because its original name is a
reserved word in Lean. -/
structure WebhookSignatureConfigM where
  algorithm : Option String := none
  signatureHeader : Option Str := none
  timestampHeader : Option Str := none
  tolerance : Option Int := none
  pfx : Option Str := none
deriving DecidableEq

/-- Fully-resolved webhook verification configuration
(Required WebhookSignatureConfig). -/
structure WebhookConfigFinal where
  algorithm : String
  signatureHeader : Str
  timestampHeader : Str
  tolerance : Int
  pfx : Str
deriving DecidableEq

/-- WebhookUtils.DEFAULT_CONFIG. -/
def defaultWebhookConfig : WebhookConfigFinal :=
  { algorithm := "sha256"
    signatureHeader := "x-magpie-signature".toList
    timestampHeader := "x-magpie-timestamp".toList
    tolerance := 300
    pfx := "v1=".toList }

/-- Spread-merge of the default configuration with caller overrides, as in
the source expression that spreads DEFAULT_CONFIG and then the caller config. -/
def mergeConfig (c : WebhookSignatureConfigM) : WebhookConfigFinal :=
  { algorithm := c.algorithm.getD defaultWebhookConfig.algorithm
    signatureHeader := c.signatureHeader.getD defaultWebhookConfig.signatureHeader
    timestampHeader := c.timestampHeader.getD defaultWebhookConfig.timestampHeader
    tolerance := c.tolerance.getD defaultWebhookConfig.tolerance
    pfx := c.pfx.getD defaultWebhookConfig.pfx }

/-- The HMAC-hex primitive crypto.createHmac(algorithm, secret)
.update(payload).digest(hex-encoding).  The Node crypto builtin lives outside
the repository; it enters the model as an explicit function parameter taking
the algorithm name, the secret and the payload.  The only property of it the
source relies on is that it is a deterministic function of those three
arguments. -/
abbrev HmacFn := String → Str → Str → Str

/-- Model of WebhookUtils.generateSignature: the hex digest of the HMAC of
the payload under the secret. -/
def generateSignature (hmac : HmacFn) (payload : Str) (secret : Str)
    (algorithm : String) : Str :=
  hmac algorithm secret payload

/-- Numeric value of one hexadecimal digit, as accepted by Buffer hex
decoding. -/
def hexVal (c : Char) : Option Nat :=
  if '0' ≤ c ∧ c ≤ '9' then some (c.toNat - '0'.toNat)
  else if 'a' ≤ c ∧ c ≤ 'f' then some (c.toNat - 'a'.toNat + 10)
  else if 'A' ≤ c ∧ c ≤ 'F' then some (c.toNat - 'A'.toNat + 10)
  else none

/-- Model of Buffer hex decoding: consume hex-digit pairs, stopping at the
first invalid pair or at an odd leftover character. -/
def hexDecode : Str → List Nat
  | c1 :: c2 :: rest =>
    match hexVal c1, hexVal c2 with
    | some hi, some lo => (16 * hi + lo) :: hexDecode rest
    | _, _ => []
  | _ => []

/-- Model of WebhookUtils.timingSafeEqual.  Returns false when the two hex
strings have different lengths; otherwise hex-decodes both and compares the
byte buffers.  crypto.timingSafeEqual throws when the decoded buffers have
different byte lengths, modelled as the error case (the callers catch it). -/
def timingSafeEqual (a b : Str) : Except Unit Bool :=
  if a.length ≠ b.length then .ok false
  else
    let bufferA := hexDecode a
    let bufferB := hexDecode b
    if bufferA.length ≠ bufferB.length then .error ()
    else .ok (bufferA == bufferB)

/-- Parsed signature header (WebhookSignature). -/
structure WebhookSignatureM where
  version : Str
  signature : Str
deriving DecidableEq

/-- Model of the JavaScript string replace with a plain-string pattern: only
the first occurrence of the character is removed. -/
def replaceFirst : Str → Char → Str
  | [], _ => []
  | c :: rest, t => if c = t then rest else c :: replaceFirst rest t

/-- Model of WebhookUtils.parseSignature: the header value must start with
the configured marker; the remainder is the signature.  A missing marker
throws, modelled as the error case. -/
def parseSignature (signature : Str) (pfx : Str) :
    Except Unit WebhookSignatureM :=
  if pfx.isPrefixOf signature then
    .ok { version := replaceFirst pfx '=', signature := signature.drop pfx.length }
  else .error ()

/-- Model of WebhookUtils.verifySignature.  Any throw inside the try block
(malformed header marker, buffer length mismatch) is caught and yields
false. -/
def verifySignature (hmac : HmacFn) (payload : Str) (signature : Str)
    (secret : Str) (config : WebhookSignatureConfigM) : Bool :=
  let finalConfig := mergeConfig config
  match parseSignature signature finalConfig.pfx with
  | .error _ => false
  | .ok parsedSignature =>
    let expectedSignature := generateSignature hmac payload secret finalConfig.algorithm
    match timingSafeEqual parsedSignature.signature expectedSignature with
    | .error _ => false
    | .ok b => b

/-- Model of WebhookUtils.generateTestSignature: the configured marker
followed by the HMAC hex digest. -/
def generateTestSignature (hmac : HmacFn) (payload : Str) (secret : Str)
    (algorithm : String) (pfx : Str) : Str :=
  pfx ++ generateSignature hmac payload secret algorithm

/-! ### Helper lemmas for the round-trip property -/

theorem isPrefixOf_append_self (l t : Str) : l.isPrefixOf (l ++ t) = true := by
  induction l with
  | nil => simp [List.isPrefixOf]
  | cons a as ih => simp [List.isPrefixOf, ih]

theorem timingSafeEqual_self (a : Str) : timingSafeEqual a a = .ok true := by
  simp [timingSafeEqual]

/-- C5: for every payload, secret and HMAC primitive, verifying the signature
produced by generateTestSignature under the default configuration (sha256,
marker v1=) succeeds. -/
theorem c5_signature_round_trip (hmac : HmacFn) (payload secret : Str) :
    verifySignature hmac payload
      (generateTestSignature hmac payload secret "sha256" "v1=".toList)
      secret {} = true := by
  unfold verifySignature generateTestSignature parseSignature
  simp [mergeConfig, defaultWebhookConfig, isPrefixOf_append_self,
    List.drop_left, timingSafeEqual_self]

/-! ### Headers, timestamps and event construction -/

/-- A raw header value as delivered by a Node HTTP framework: either a single
string or an array of strings. -/
inductive HeaderValue where
  | str (s : Str)
  | arr (vs : List Str)
deriving DecidableEq

/-- The inbound headers record (Record of string to string-or-array), as a
JavaScript object: property lookup compares names exactly. -/
abbrev WebhookHeaders := List (Str × HeaderValue)

/-- JavaScript object property read on the headers record. -/
def hFind (headers : WebhookHeaders) (name : Str) : Option HeaderValue :=
  (headers.find? (fun p => p.1 == name)).map (·.2)

/-- Lower-casing a JavaScript string. -/
def toLowerStr (s : Str) : Str := s.map Char.toLower

/-- Model of WebhookUtils.getHeader: read the name as given, falling back to
its lower-cased form; an array value contributes its first element. -/
def getHeader (headers : WebhookHeaders) (name : Str) : Option Str :=
  match (hFind headers name).orElse (fun _ => hFind headers (toLowerStr name)) with
  | none => none
  | some (.str s) => some s
  | some (.arr vs) => vs.head?

/-- Model of the JavaScript parseInt applied to a header value: optional
leading whitespace, an optional sign, then leading decimal digits; none
models NaN. -/
def parseIntJS (s : Str) : Option Int :=
  let s1 := s.dropWhile (fun c => c = ' ')
  let signAndRest : Bool × Str :=
    match s1 with
    | '-' :: rest => (true, rest)
    | '+' :: rest => (false, rest)
    | _ => (false, s1)
  let digits := signAndRest.2.takeWhile (·.isDigit)
  if digits.isEmpty then none
  else
    let n : Nat := digits.foldl (fun acc c => acc * 10 + (c.toNat - '0'.toNat)) 0
    some (if signAndRest.1 then -(n : Int) else (n : Int))

/-- Model of WebhookUtils.isValidTimestamp.  Date.now() is impure and enters
as the explicit parameter now (Unix seconds); a NaN timestamp (parseInt
failure) is modelled as none and never lies within tolerance, matching the
NaN comparison semantics. -/
def isValidTimestamp (now : Int) (timestamp : Option Int) (tolerance : Int) :
    Bool :=
  match timestamp with
  | none => false
  | some t => decide (|now - t| ≤ tolerance)

/-- The MagpieError thrown for a missing signature header. -/
def webhookSignatureMissingError (name : Str) : MagpieErrorM :=
  { message := "Missing signature header: " ++ String.mk name
    type := .invalid_request_error
    code := some "webhook_signature_missing" }

/-- The MagpieError thrown for a stale or unparsable timestamp. -/
def webhookTimestampInvalidError : MagpieErrorM :=
  { message := "Webhook timestamp is outside tolerance window"
    type := .invalid_request_error
    code := some "webhook_timestamp_invalid" }

/-- The MagpieError thrown by constructEvent for a bad signature. -/
def webhookSignatureInvalidError : MagpieErrorM :=
  { message := "Invalid webhook signature"
    type := .invalid_request_error
    code := some "webhook_signature_invalid" }

/-- The MagpieError thrown by constructEvent for an unparsable payload. -/
def webhookPayloadInvalidError : MagpieErrorM :=
  { message := "Invalid JSON in webhook payload"
    type := .invalid_request_error
    code := some "webhook_payload_invalid" }

/-- Model of WebhookUtils.verifySignatureWithTimestamp.  Throws (error case)
when the signature header value is falsy, or when a truthy timestamp header
value fails the tolerance check; otherwise delegates to verifySignature with
the caller configuration, exactly as the source does. -/
def verifySignatureWithTimestamp (hmac : HmacFn) (now : Int) (payload : Str)
    (headers : WebhookHeaders) (secret : Str)
    (config : WebhookSignatureConfigM) : Except MagpieErrorM Bool :=
  let finalConfig := mergeConfig config
  let signature := getHeader headers finalConfig.signatureHeader
  let timestamp := getHeader headers finalConfig.timestampHeader
  if !jsTruthyO signature then
    .error (webhookSignatureMissingError finalConfig.signatureHeader)
  else if jsTruthyO timestamp
      && !isValidTimestamp now (parseIntJS (timestamp.getD [])) finalConfig.tolerance then
    .error webhookTimestampInvalidError
  else
    .ok (verifySignature hmac payload (signature.getD []) secret config)

/-- Model of WebhookUtils.constructEvent.  JSON.parse is a JavaScript builtin
outside the repository; it enters as the explicit parameter jsonParse, with
none modelling a parse throw.  The event type is left abstract. -/
def constructEvent {α : Type} (jsonParse : Str → Option α) (hmac : HmacFn)
    (payload : Str) (signature : Str) (secret : Str)
    (config : WebhookSignatureConfigM) : Except MagpieErrorM α :=
  if !verifySignature hmac payload signature secret config then
    .error webhookSignatureInvalidError
  else
    match jsonParse payload with
    | some event => .ok event
    | none => .error webhookPayloadInvalidError

/-- C4: constructEvent checks the signature first; a failed verification
yields the invalid-signature error and the result does not depend on the JSON
parser at all (the payload is never parsed); with a valid signature, a parse
failure yields the distinct invalid-payload error, and only when both succeed
is the parsed event returned. -/
theorem c4_verify_before_parse {α : Type} (jsonParse jsonParse2 : Str → Option α)
    (hmac : HmacFn) (payload signature secret : Str)
    (config : WebhookSignatureConfigM) :
    (verifySignature hmac payload signature secret config = false →
      constructEvent jsonParse hmac payload signature secret config
          = .error webhookSignatureInvalidError
        ∧ constructEvent jsonParse hmac payload signature secret config
          = constructEvent jsonParse2 hmac payload signature secret config)
    ∧ (verifySignature hmac payload signature secret config = true →
        (jsonParse payload = none →
          constructEvent jsonParse hmac payload signature secret config
            = .error webhookPayloadInvalidError)
        ∧ ∀ event, jsonParse payload = some event →
          constructEvent jsonParse hmac payload signature secret config
            = .ok event) := by
  refine ⟨fun hfail => ?_, fun hok => ⟨fun hnone => ?_, fun event hsome => ?_⟩⟩
  · simp [constructEvent, hfail]
  · simp [constructEvent, hok, hnone]
  · simp [constructEvent, hok, hsome]

/-- A concrete deterministic stand-in for the HMAC primitive, used to
instantiate hypotheses of the webhook theorems on concrete inputs. -/
def hmacDemo : HmacFn := fun _ secret payload => secret ++ payload

/-- A concrete stand-in for JSON.parse used on concrete inputs: parses the
two-character payload 42 and rejects everything else. -/
def jsonParseDemo (s : Str) : Option Nat :=
  if s = "42".toList then some 42 else none

theorem c4_verify_before_parse_witness :
    (verifySignature hmacDemo "42".toList "zz".toList "sec".toList {} = false
      ∧ constructEvent jsonParseDemo hmacDemo "42".toList "zz".toList "sec".toList {}
          = .error webhookSignatureInvalidError)
    ∧ (verifySignature hmacDemo "x".toList
          (generateTestSignature hmacDemo "x".toList "sec".toList "sha256" "v1=".toList)
          "sec".toList {} = true
      ∧ constructEvent jsonParseDemo hmacDemo "x".toList
          (generateTestSignature hmacDemo "x".toList "sec".toList "sha256" "v1=".toList)
          "sec".toList {} = .error webhookPayloadInvalidError)
    ∧ (constructEvent jsonParseDemo hmacDemo "42".toList
          (generateTestSignature hmacDemo "42".toList "sec".toList "sha256" "v1=".toList)
          "sec".toList {} = .ok 42) :=
  ⟨⟨by decide,
    ((c4_verify_before_parse jsonParseDemo jsonParseDemo hmacDemo "42".toList
        "zz".toList "sec".toList {}).1 (by decide)).1⟩,
   ⟨by decide,
    ((c4_verify_before_parse jsonParseDemo jsonParseDemo hmacDemo "x".toList
        (generateTestSignature hmacDemo "x".toList "sec".toList "sha256" "v1=".toList)
        "sec".toList {}).2 (by decide)).1 (by decide)⟩,
   ((c4_verify_before_parse jsonParseDemo jsonParseDemo hmacDemo "42".toList
        (generateTestSignature hmacDemo "42".toList "sec".toList "sha256" "v1=".toList)
        "sec".toList {}).2 (by decide)).2 42 (by decide)⟩

/-- C8 counterexample input: a headers record in which the signature header
is present but holds the empty string. -/
def headersWithEmptySignature : WebhookHeaders :=
  [("x-magpie-signature".toList, HeaderValue.str [])]

/-- C8 counterexample: with the signature header present but empty,
verifySignatureWithTimestamp still raises the missing-signature-header error,
so the error is not raised exactly when the header is absent. -/
theorem c8_empty_header_counterexample :
    (hFind headersWithEmptySignature "x-magpie-signature".toList).isSome = true
    ∧ verifySignatureWithTimestamp hmacDemo 0 [] headersWithEmptySignature [] {}
        = .error (webhookSignatureMissingError "x-magpie-signature".toList) := by
  decide

/-- C8 as amended: the missing-signature-header error (whose message names
the configured header) is raised exactly when the configured signature header
is absent or holds a falsy (empty) value; and when the signature header is
truthy and the timestamp header absent, the call returns plain signature
verification with no timestamp error. -/
theorem c8_missing_signature_header (hmac : HmacFn) (now : Int) (payload : Str)
    (headers : WebhookHeaders) (secret : Str) (config : WebhookSignatureConfigM) :
    ((∃ e, verifySignatureWithTimestamp hmac now payload headers secret config
          = .error e ∧ e.code = some "webhook_signature_missing")
      ↔ jsTruthyO (getHeader headers (mergeConfig config).signatureHeader) = false)
    ∧ (jsTruthyO (getHeader headers (mergeConfig config).signatureHeader) = true →
        getHeader headers (mergeConfig config).timestampHeader = none →
        verifySignatureWithTimestamp hmac now payload headers secret config
          = .ok (verifySignature hmac payload
              ((getHeader headers (mergeConfig config).signatureHeader).getD [])
              secret config)) := by
  unfold verifySignatureWithTimestamp
  constructor
  · cases h : jsTruthyO (getHeader headers (mergeConfig config).signatureHeader) with
    | false =>
      simp only [h, Bool.not_false, if_true]
      exact ⟨fun _ => trivial, fun _ =>
        ⟨webhookSignatureMissingError (mergeConfig config).signatureHeader, rfl, rfl⟩⟩
    | true =>
      simp only [h, Bool.not_true, Bool.false_eq_true, if_false]
      constructor
      · rintro ⟨e, he, hcode⟩
        split at he
        · cases he
          simp [webhookTimestampInvalidError] at hcode
        · cases he
      · intro hfalse
        exact Bool.noConfusion hfalse
  · intro htrue hts
    simp only [htrue, hts, Bool.not_true, Bool.false_eq_true, if_false,
      show jsTruthyO none = false from rfl, Bool.false_and, Option.getD_none]

/-- C8 witness input: a headers record with only a signature header holding a
nonempty (though invalid) value. -/
def headersWithSignatureOnly : WebhookHeaders :=
  [("x-magpie-signature".toList, HeaderValue.str "zz".toList)]

theorem c8_missing_signature_header_witness :
    jsTruthyO (getHeader headersWithSignatureOnly (mergeConfig {}).signatureHeader) = true
    ∧ getHeader headersWithSignatureOnly (mergeConfig {}).timestampHeader = none
    ∧ verifySignatureWithTimestamp hmacDemo 0 [] headersWithSignatureOnly [] {}
        = .ok (verifySignature hmacDemo []
            ((getHeader headersWithSignatureOnly (mergeConfig {}).signatureHeader).getD [])
            [] {}) :=
  ⟨by decide, by decide,
   (c8_missing_signature_header hmacDemo 0 [] headersWithSignatureOnly [] {}).2
     (by decide) (by decide)⟩

/-! ## Request engine (src/base-client.ts, class BaseClient)

The engine part of the model uses Lean String for JavaScript strings, since
only literal equality matters here.  Response headers and request headers are
JavaScript objects, modelled as association lists with exact-name property
lookup.  The network is impure; a request execution consumes an explicit
script of per-attempt outcomes. -/

/-- HTTP methods (type HttpMethod in src/types/magpie.ts). -/
inductive HttpMethod where
  | GET | POST | PUT | PATCH | DELETE | HEAD | OPTIONS
deriving DecidableEq

/-- The method name after toLowerCase, as compared in shouldRetry. -/
def HttpMethod.lower : HttpMethod → String
  | .GET => "get"
  | .POST => "post"
  | .PUT => "put"
  | .PATCH => "patch"
  | .DELETE => "delete"
  | .HEAD => "head"
  | .OPTIONS => "options"

/-- JavaScript object property read on a string-valued headers object. -/
def hGet (headers : List (String × String)) (name : String) : Option String :=
  (headers.find? (fun p => p.1 == name)).map (·.2)

/-- JavaScript truthiness of an optional String: undefined and the empty
string are falsy. -/
def jsTruthyString : Option String → Bool
  | none => false
  | some s => !(s == "")

/-- An entry of the error body the remote API may attach under the error key
(interface ApiErrorResponse in src/errors/magpie-error.ts).  A none field
models an absent property. -/
structure ApiErrorBody where
  message : Option String := none
  type : Option String := none
  code : Option String := none
  param : Option String := none
  doc_url : Option String := none
  decline_code : Option String := none
  charge_id : Option String := none
deriving DecidableEq

/-- The body of an HTTP response as far as the error path inspects it: a
nullish body, a bare string, or an object with an optional flat message and
an optional nested error object (the three shapes the remote API produces). -/
inductive RespData where
  | null
  | str (s : String)
  | obj (message : Option String) (error : Option ApiErrorBody)
deriving DecidableEq

/-- The optional-chained read data?.error?.message. -/
def RespData.errMessage : RespData → Option String
  | .obj _ (some e) => e.message
  | _ => none

/-- The optional-chained read data?.message. -/
def RespData.topMessage : RespData → Option String
  | .obj m _ => m
  | _ => none

/-- The optional-chained read data?.error?.code. -/
def RespData.errCode : RespData → Option String
  | .obj _ (some e) => e.code
  | _ => none

/-- JavaScript truthiness of a response body: null and the empty string are
falsy, every object is truthy. -/
def RespData.truthy : RespData → Bool
  | .null => false
  | .str s => !(s == "")
  | .obj _ _ => true

/-- An HTTP response as seen by the axios layer. -/
structure AxiosResponseM where
  status : Nat
  data : RespData
  headers : List (String × String)
deriving DecidableEq

/-- An axios rejection value: a response is present for an HTTP-level
failure, absent for a connection-level failure carrying a code. -/
structure AxiosErrorM where
  response : Option AxiosResponseM := none
  code : Option String := none
  message : Option String := none
deriving DecidableEq

/-- BaseClient.mapStatusToErrorType: the status-to-tag mapping used by
createErrorFromResponse.  Note it has no cases for 409 or 422; every 4xx
other than 429, 401, 403, 404 becomes invalid_request_error. -/
def mapStatusToErrorType (status : Nat) : MagpieErrorType :=
  if 500 ≤ status then .api_error
  else if status == 429 then .rate_limit_error
  else if status == 401 then .authentication_error
  else if status == 403 then .permission_error
  else if status == 404 then .not_found_error
  else if 400 ≤ status then .invalid_request_error
  else .api_error

/-- BaseClient.createErrorFromResponse: the MagpieError thrown by the
response interceptor fulfilled handler for a response with status at least
400.  Its requestId reads only the request-id header name. -/
def createErrorFromResponse (r : AxiosResponseM) : MagpieErrorM :=
  { message := ((r.data.errMessage).orElse (fun _ => r.data.topMessage)).getD
      ("HTTP " ++ toString r.status ++ " Error")
    type := mapStatusToErrorType r.status
    code := some ((r.data.errCode).getD ("http_" ++ toString r.status))
    statusCode := some r.status
    requestId := hGet r.headers "request-id"
    headers := some r.headers }

/-- MagpieError.isValidErrorType composed with the coercion of a valid tag
string to the closed tag set. -/
def errorTypeOfString (s : String) : Option MagpieErrorType :=
  if s == "api_error" then some .api_error
  else if s == "authentication_error" then some .authentication_error
  else if s == "card_error" then some .card_error
  else if s == "idempotency_error" then some .idempotency_error
  else if s == "invalid_request_error" then some .invalid_request_error
  else if s == "rate_limit_error" then some .rate_limit_error
  else if s == "validation_error" then some .validation_error
  else if s == "permission_error" then some .permission_error
  else if s == "network_error" then some .network_error
  else if s == "not_found_error" then some .not_found_error
  else if s == "timeout_error" then some .timeout_error
  else if s == "configuration_error" then some .configuration_error
  else none

/-- The status switch inside MagpieError.mapStatusToType. -/
def mapStatusToTypeCore (status : Option Nat) : MagpieErrorType :=
  match status with
  | none => .api_error
  | some s =>
    if s == 400 then .invalid_request_error
    else if s == 401 then .authentication_error
    else if s == 403 then .permission_error
    else if s == 404 then .not_found_error
    else if s == 409 then .idempotency_error
    else if s == 422 then .validation_error
    else if s == 429 then .rate_limit_error
    else .api_error

/-- MagpieError.mapStatusToType: a truthy, valid API-provided tag wins over
the status-derived tag. -/
def mapStatusToType (status : Option Nat) (apiType : Option String) :
    MagpieErrorType :=
  match apiType with
  | some t =>
    if t == "" then mapStatusToTypeCore status
    else
      match errorTypeOfString t with
      | some mt => mt
      | none => mapStatusToTypeCore status
  | none => mapStatusToTypeCore status

/-- MagpieError.mapCodeToType, for connection-level failures. -/
def mapCodeToType (code : Option String) : MagpieErrorType :=
  match code with
  | none => .network_error
  | some c =>
    if c == "" then .network_error
    else if ["ENOTFOUND", "ECONNREFUSED", "ECONNRESET", "EPIPE"].contains c then
      .network_error
    else if c == "ETIMEDOUT" then .timeout_error
    else .network_error

/-- The network-or-other branch at the end of MagpieError.fromAxiosError. -/
def netErrorOf (e : AxiosErrorM) : MagpieErrorM :=
  { message := e.message.getD "Network error occurred"
    type := mapCodeToType e.code
    code := e.code }

/-- MagpieError.fromAxiosError (src/errors/magpie-error.ts).  The guard on a
truthy response body routes nullish and empty-string bodies to the network
branch.  Its requestId falls back from request-id to x-request-id. -/
def fromAxiosError (e : AxiosErrorM) : MagpieErrorM :=
  match e.response with
  | some r =>
    match r.data with
    | .str s =>
      if s == "" then netErrorOf e
      else
        { message := s
          type := mapStatusToType (some r.status) none
          code := some ("http_" ++ toString r.status)
          statusCode := some r.status
          requestId := (hGet r.headers "request-id").orElse
            (fun _ => hGet r.headers "x-request-id")
          headers := some r.headers }
    | .obj topMsg errObj =>
      match errObj with
      | some eo =>
        { message := ((eo.message).orElse (fun _ => topMsg)).getD
            ("HTTP " ++ toString r.status ++ " Error")
          type := mapStatusToType (some r.status) eo.type
          code := some ((eo.code).getD ("http_" ++ toString r.status))
          statusCode := some r.status
          requestId := (hGet r.headers "request-id").orElse
            (fun _ => hGet r.headers "x-request-id")
          param := eo.param
          docUrl := eo.doc_url
          declineCode := eo.decline_code
          chargeId := eo.charge_id
          headers := some r.headers }
      | none =>
        { message := topMsg.getD ("HTTP " ++ toString r.status ++ " Error")
          type := mapStatusToType (some r.status) none
          code := some ("http_" ++ toString r.status)
          statusCode := some r.status
          requestId := (hGet r.headers "request-id").orElse
            (fun _ => hGet r.headers "x-request-id")
          headers := some r.headers }
    | .null => netErrorOf e
  | none => netErrorOf e

/-! ### Request construction (BaseClient.request) -/

/-- A query-parameter value: a single string or a list (the expand list). -/
inductive ParamValue where
  | s (v : String)
  | many (vs : List String)
deriving DecidableEq

/-- The per-call options recognized by BaseClient.request (RequestOptions in
src/types/magpie.ts).  The axiosConfig pass-through override is not exercised
by any claim and is modelled as absent (its spread contributes nothing). -/
structure RequestOptionsM where
  idempotencyKey : Option String := none
  expand : Option (List String) := none
  retryable : Option Bool := none
deriving DecidableEq

/-- The axios request config assembled by BaseClient.request, including the
private retry-control fields read by the interceptor. -/
structure ReqConfig where
  method : HttpMethod
  url : String
  headers : List (String × String) := []
  data : Option (List (String × String)) := none
  params : List (String × ParamValue) := []
  retryable : Option Bool := none
deriving DecidableEq

/-- JavaScript object spread merge of two params objects: entries of the
second override entries of the first. -/
def jsMergeParams (a b : List (String × ParamValue)) :
    List (String × ParamValue) :=
  a.filter (fun p => !(b.any (fun q => q.1 == p.1))) ++ b

/-- Model of the config-assembly phase of BaseClient.request: path
normalization, body versus query-parameter placement by method, the
X-Idempotency-Key header, the expand parameter and the retryable marker.
At dispatch axios merges in the instance default headers set by
createAxiosInstance (Content-Type, Accept, User-Agent, X-API-Version),
preserving each name as spelled; none of them introduces a name relevant to
the retry decision, so they are left out of the per-request headers here. -/
def buildRequest (method : HttpMethod) (endpoint : String)
    (data : Option (List (String × String))) (options : RequestOptionsM) :
    ReqConfig :=
  let url := if endpoint.startsWith "/" then endpoint else "/" ++ endpoint
  let base : ReqConfig := { method := method, url := url }
  let afterData :=
    if ["post", "put", "patch"].contains method.lower && data.isSome then
      { base with data := data }
    else if data.isSome then
      { base with params := (jsMergeParams base.params
          ((data.getD []).map (fun p => (p.1, ParamValue.s p.2)))) }
    else base
  let afterIdem :=
    if jsTruthyString options.idempotencyKey then
      { afterData with headers :=
          afterData.headers ++ [("X-Idempotency-Key", options.idempotencyKey.getD "")] }
    else afterData
  let afterExpand :=
    match options.expand with
    | some l =>
      if decide (0 < l.length) then
        { afterIdem with params := jsMergeParams afterIdem.params [("expand", ParamValue.many l)] }
      else afterIdem
    | none => afterIdem
  if options.retryable == some false then
    { afterExpand with retryable := some false }
  else afterExpand

/-! ### Retry decision and chain execution -/

/-- The client configuration with defaults applied
(Required MagpieConfig).  retryDelay is rational so that the backoff
arithmetic is exact. -/
structure MagpieConfigFinal where
  baseUrl : String
  timeout : Nat
  maxRetries : Nat
  retryDelay : ℚ
  debug : Bool
  apiVersion : String
deriving DecidableEq

/-- The validateStatus predicate installed by createAxiosInstance: axios
resolves (does not reject) every response with status below 600. -/
def validateStatus (status : Nat) : Bool := status < 600

/-- The safe-method list in BaseClient.shouldRetry. -/
def safeMethods : List String := ["get", "head", "options", "put", "delete"]

/-- The connection-error allow-list in BaseClient.shouldRetry. -/
def retryableNetworkCodes : List String :=
  ["ENOTFOUND", "ECONNRESET", "ETIMEDOUT", "ECONNREFUSED"]

/-- BaseClient.shouldRetry.  retryCount is the current value of the
private retry counter on the request object (zero before the first retry).
Note the idempotency lookup reads the header name idempotency-key, while
BaseClient.request stores the key under X-Idempotency-Key. -/
def shouldRetry (cfg : MagpieConfigFinal) (error : AxiosErrorM)
    (req : ReqConfig) (retryCount : Nat) : Bool :=
  if cfg.maxRetries ≤ retryCount then false
  else if req.retryable == some false then false
  else if !safeMethods.contains req.method.lower
      && (req.method.lower == "post"
          && !jsTruthyString (hGet req.headers "idempotency-key")) then
    false
  else
    match error.response with
    | none => retryableNetworkCodes.contains (error.code.getD "")
    | some r => decide (500 ≤ r.status) || r.status == 429

/-- The axios rejection produced by the adapter for a response failing
validateStatus. -/
def axiosErrorOfResponse (r : AxiosResponseM) : AxiosErrorM :=
  { response := some r
    message := some ("Request failed with status code " ++ toString r.status) }

/-- The axios rejection produced by the adapter for a connection-level
failure. -/
def axiosErrorOfNet (code message : Option String) : AxiosErrorM :=
  { code := code, message := message }

/-- What the network does on one attempt of a logical request: either the
server answers with a status, body and headers, or the connection fails with
a Node error code. -/
inductive AttemptOutcome where
  | resp (r : AxiosResponseM)
  | netErr (code : Option String) (message : Option String)
deriving DecidableEq

/-- The observable outcome of executing one logical request: the final
resolved response or thrown MagpieError, together with the number of attempts
dispatched.  outOfScript marks a simulation script shorter than the number of
attempts the engine makes and is never reached in the scenarios below. -/
inductive EngineResult where
  | okRes (r : AxiosResponseM) (attempts : Nat)
  | errRes (e : MagpieErrorM) (attempts : Nat)
  | outOfScript (attempts : Nat)
deriving DecidableEq

/-- Execution of one logical request through the axios promise chain built by
setupInterceptors, one recursion level per dispatched attempt.

Per attempt: the adapter applies validateStatus, so a response with status
below 600 resolves and reaches the fulfilled response interceptor, which
throws createErrorFromResponse for status at least 400 — a throw inside the
fulfilled handler of a then-pair is not caught by the rejected handler of the
same pair, so it terminates the chain at once.  Only an adapter rejection (a
connection failure, or a status of 600 or more) reaches the rejected handler,
which either re-dispatches the same request object with an incremented retry
counter (entering a fresh, identical chain) or throws fromAxiosError.  The
backoff delay awaited between attempts does not affect the result value and
is not modelled here (see calculateRetryDelay). -/
def runChain (cfg : MagpieConfigFinal) (req : ReqConfig) (retryCount : Nat) :
    List AttemptOutcome → EngineResult
  | [] => .outOfScript retryCount
  | outcome :: rest =>
    match outcome with
    | .resp r =>
      if validateStatus r.status then
        if 400 ≤ r.status then .errRes (createErrorFromResponse r) (retryCount + 1)
        else .okRes r (retryCount + 1)
      else
        if shouldRetry cfg (axiosErrorOfResponse r) req retryCount then
          runChain cfg req (retryCount + 1) rest
        else .errRes (fromAxiosError (axiosErrorOfResponse r)) (retryCount + 1)
    | .netErr c m =>
      if shouldRetry cfg (axiosErrorOfNet c m) req retryCount then
        runChain cfg req (retryCount + 1) rest
      else .errRes (fromAxiosError (axiosErrorOfNet c m)) (retryCount + 1)

/-- The ApiResponse value returned to the caller of BaseClient.request. -/
structure ApiResponseM where
  data : RespData
  status : Nat
  headers : List (String × String)
  requestId : Option String
deriving DecidableEq

/-- The JavaScript or-null coalescing x or-else null: a falsy value becomes
null. -/
def jsOrNull (o : Option String) : Option String :=
  if jsTruthyString o then o else none

/-- The return-value construction at the end of BaseClient.request: data,
status, headers, and a requestId read only from the request-id header name
(empty values becoming null). -/
def apiResponseOf (r : AxiosResponseM) : ApiResponseM :=
  { data := r.data
    status := r.status
    headers := r.headers
    requestId := jsOrNull (hGet r.headers "request-id") }

/-! ### Client construction and credential management -/

/-- A thrown JavaScript error value, distinguishing the plain Error values
thrown by the constructor and by setApiKey from the MagpieError hierarchy, of
which ConfigurationError (src/errors/configuration-error.ts) is the
configuration-tagged subclass. -/
inductive ThrownError where
  | plainError (message : String)
  | magpieErr (e : MagpieErrorM)
  | configurationErr (e : MagpieErrorM)
deriving DecidableEq

/-- Whether a thrown error is an instance of the ConfigurationError class. -/
def ThrownError.isConfigurationErrorClass : ThrownError → Bool
  | .configurationErr _ => true
  | _ => false

/-- The ConfigurationError constructor (src/errors/configuration-error.ts):
a MagpieError with the configuration tag and code. -/
def mkConfigurationError (message : String) : ThrownError :=
  .configurationErr
    { message := message
      type := .configuration_error
      code := some "configuration_error" }

/-- The caller-supplied configuration (MagpieConfig): every field optional.
An explicitly-undefined property is identified with an absent one, so the
trailing config spread in the constructor adds nothing beyond the defaulted
fields. -/
structure MagpieConfigInput where
  baseUrl : Option String := none
  timeout : Option Nat := none
  maxRetries : Option Nat := none
  retryDelay : Option ℚ := none
  debug : Option Bool := none
  apiVersion : Option String := none
deriving DecidableEq

/-- The default-filling step of the BaseClient constructor. -/
def resolveConfig (c : MagpieConfigInput) : MagpieConfigFinal :=
  { baseUrl := c.baseUrl.getD "https://api.magpie.im"
    timeout := c.timeout.getD 30000
    maxRetries := c.maxRetries.getD 3
    retryDelay := c.retryDelay.getD 1000
    debug := c.debug.getD false
    apiVersion := c.apiVersion.getD "v2" }

/-- The state of a BaseClient instance: the stored key, the Basic-auth
username installed on the axios instance (auth username with empty password,
re-read by every subsequently constructed request), and the resolved
configuration. -/
structure ClientState where
  secretKey : Str
  authUsername : Str
  config : MagpieConfigFinal
deriving DecidableEq

/-- The BaseClient constructor: rejects a falsy key and a key not carrying
the sk_ marker, both with plain Error values; otherwise stores the key,
resolves the configuration and installs the key as the Basic-auth
username. -/
def mkBaseClient (secretKey : Str) (config : MagpieConfigInput) :
    Except ThrownError ClientState :=
  if !jsTruthy secretKey then .error (.plainError "Missing or invalid secretKey")
  else if !("sk_".toList.isPrefixOf secretKey) then
    .error (.plainError "Invalid secretKey")
  else
    .ok { secretKey := secretKey, authUsername := secretKey,
          config := resolveConfig config }

/-- BaseClient.setApiKey: rejects a falsy key and a key carrying neither the
sk_ nor the pk_ marker, both with plain Error values; otherwise stores the
key and reinstalls the Basic-auth username on the axios defaults, which every
subsequently constructed request reads. -/
def setApiKey (st : ClientState) (apiKey : Str) :
    Except ThrownError ClientState :=
  if !jsTruthy apiKey then .error (.plainError "Missing or invalid API key")
  else if !("sk_".toList.isPrefixOf apiKey || "pk_".toList.isPrefixOf apiKey) then
    .error (.plainError "Invalid API key - must start with sk_ or pk_")
  else
    .ok { st with secretKey := apiKey, authUsername := apiKey }

/-! ### Claims about the retry engine -/

/-- C1 (behavior at the failing input): for every configuration, request and
response body, a script of consecutive 503 responses terminates after exactly
one attempt — zero retries — with the MagpieError built by
createErrorFromResponse, of type api_error.  No retry happens for any
maxRetries because a 503 passes validateStatus, so the fulfilled response
interceptor throws past the retry handler of the same interceptor pair. -/
theorem c1_503_immediate_error (cfg : MagpieConfigFinal) (req : ReqConfig)
    (d : RespData) (hs : List (String × String)) (rest : List AttemptOutcome) :
    runChain cfg req 0 (.resp { status := 503, data := d, headers := hs } :: rest)
        = .errRes (createErrorFromResponse { status := 503, data := d, headers := hs }) 1
    ∧ (createErrorFromResponse { status := 503, data := d, headers := hs }).type
        = .api_error := by
  constructor
  · simp [runChain, validateStatus]
  · simp [createErrorFromResponse, mapStatusToErrorType]

/-- The POST request of C2: endpoint /customers with an idempotency key
supplied through the request options. -/
def postWithKeyReq : ReqConfig :=
  buildRequest .POST "/customers" none { idempotencyKey := some "idem_123" }

/-- C2 (behavior at the failing input): the POST carries the
X-Idempotency-Key header, yet a 503 still terminates after one attempt with
zero retries; and even a retryable connection failure is not retried, because
shouldRetry looks the key up under the name idempotency-key while the request
stores it under X-Idempotency-Key. -/
theorem c2_post_with_key_not_retried (cfg : MagpieConfigFinal) (d : RespData)
    (hs : List (String × String)) (rest : List AttemptOutcome) :
    hGet postWithKeyReq.headers "X-Idempotency-Key" = some "idem_123"
    ∧ runChain cfg postWithKeyReq 0
        (.resp { status := 503, data := d, headers := hs } :: rest)
        = .errRes (createErrorFromResponse { status := 503, data := d, headers := hs }) 1
    ∧ shouldRetry cfg (axiosErrorOfNet (some "ECONNRESET") none) postWithKeyReq 0
        = false := by
  refine ⟨by decide, by simp [runChain, validateStatus], ?_⟩
  unfold shouldRetry
  by_cases hmax : cfg.maxRetries ≤ 0
  · simp [hmax]
  · simp only [hmax, if_false]
    decide

/-- The concrete 422 response of the C3 counterexample. -/
def resp422 : AxiosResponseM := { status := 422, data := .null, headers := [] }

/-- A concrete resolved client configuration (all defaults). -/
def demoConfig : MagpieConfigFinal := resolveConfig {}

/-- C3 counterexample: a 422 response is surfaced after one attempt, but the
raised error carries the tag invalid_request_error, not validation_error as
the claim states. -/
theorem c3_422_counterexample :
    runChain demoConfig (buildRequest .GET "/customers" none {}) 0 [.resp resp422]
        = .errRes (createErrorFromResponse resp422) 1
    ∧ (createErrorFromResponse resp422).type = .invalid_request_error
    ∧ (createErrorFromResponse resp422).type ≠ .validation_error := by
  decide

/-- C3 as amended: a 422 response is surfaced immediately with zero retries,
and the raised StructuredError carries the tag invalid_request_error —
BaseClient.mapStatusToErrorType maps only 5xx, 429, 401, 403 and 404
specially and sends every other 4xx (422 and 409 included) to
invalid_request_error; the finer 422-to-validation mapping lives in
MagpieError.mapStatusToType, which this path does not use. -/
theorem c3_422_zero_retries (cfg : MagpieConfigFinal) (req : ReqConfig)
    (d : RespData) (hs : List (String × String)) (rest : List AttemptOutcome) :
    runChain cfg req 0 (.resp { status := 422, data := d, headers := hs } :: rest)
        = .errRes (createErrorFromResponse { status := 422, data := d, headers := hs }) 1
    ∧ (createErrorFromResponse { status := 422, data := d, headers := hs }).type
        = .invalid_request_error := by
  constructor
  · simp [runChain, validateStatus]
  · simp [createErrorFromResponse, mapStatusToErrorType]

/-- The concrete 200 response of the C9 counterexample: its request
identifier arrives only under the x-request-id casing. -/
def respWithXRequestId : AxiosResponseM :=
  { status := 200, data := .null, headers := [("x-request-id", "req_abc")] }

/-- C9 counterexample: a response whose identifier arrives under the
x-request-id casing surfaces a null requestId both on the success path and
on the HTTP-status error path, so those paths do not check both casings. -/
theorem c9_request_id_counterexample :
    hGet respWithXRequestId.headers "x-request-id" = some "req_abc"
    ∧ (apiResponseOf respWithXRequestId).requestId = none
    ∧ (createErrorFromResponse respWithXRequestId).requestId = none := by
  decide

/-- C9 as amended: the success-path ApiResponse and the error built by
createErrorFromResponse read the identifier only from the request-id header
name (the success path additionally nulls falsy values); only
MagpieError.fromAxiosError — the transport-rejection path — falls back from
request-id to x-request-id. -/
theorem c9_request_id_extraction (status : Nat) (d : RespData)
    (hs : List (String × String)) (topMsg : Option String)
    (eo : Option ApiErrorBody) :
    (apiResponseOf { status := status, data := d, headers := hs }).requestId
        = jsOrNull (hGet hs "request-id")
    ∧ (createErrorFromResponse { status := status, data := d, headers := hs }).requestId
        = hGet hs "request-id"
    ∧ (fromAxiosError
          { response := some { status := status, data := .obj topMsg eo, headers := hs } }).requestId
        = (hGet hs "request-id").orElse (fun _ => hGet hs "x-request-id") := by
  refine ⟨rfl, rfl, ?_⟩
  cases eo <;> rfl

/-! ### Claims about credential management -/

/-- A concrete client instance used by the credential counterexamples. -/
def demoClient : ClientState :=
  { secretKey := "sk_test_123".toList
    authUsername := "sk_test_123".toList
    config := resolveConfig {} }

/-- C7 counterexample: both rejection paths of setApiKey throw plain Error
values, which are not instances of the ConfigurationError class. -/
theorem c7_plain_error_counterexample :
    setApiKey demoClient [] = .error (.plainError "Missing or invalid API key")
    ∧ (ThrownError.plainError "Missing or invalid API key").isConfigurationErrorClass
        = false
    ∧ setApiKey demoClient "bad".toList
        = .error (.plainError "Invalid API key - must start with sk_ or pk_")
    ∧ (ThrownError.plainError "Invalid API key - must start with sk_ or pk_").isConfigurationErrorClass
        = false := by
  decide

/-- C7 as amended: setApiKey succeeds — storing the key and installing it as
the Basic-auth username read by all subsequently constructed requests —
exactly when the key is truthy and carries the sk_ or pk_ marker; otherwise
it fails with a plain Error (not a ConfigurationError-class error). -/
theorem c7_setApiKey_swaps_credential (st : ClientState) (key : Str) :
    ((∃ st', setApiKey st key = .ok st'
        ∧ st'.secretKey = key ∧ st'.authUsername = key ∧ st'.config = st.config)
      ↔ (jsTruthy key = true
          ∧ ("sk_".toList.isPrefixOf key || "pk_".toList.isPrefixOf key) = true))
    ∧ (setApiKey st key = .ok { st with secretKey := key, authUsername := key }
        ∨ setApiKey st key = .error (.plainError "Missing or invalid API key")
        ∨ setApiKey st key
            = .error (.plainError "Invalid API key - must start with sk_ or pk_")) := by
  cases h1 : jsTruthy key with
  | false => simp [setApiKey, h1]
  | true =>
    cases h2 : ("sk_".toList.isPrefixOf key || "pk_".toList.isPrefixOf key) with
    | false =>
      unfold setApiKey
      rw [h1, h2]
      simp
    | true =>
      unfold setApiKey
      rw [h1, h2]
      simp

theorem c7_setApiKey_swaps_credential_witness :
    ∃ st', setApiKey demoClient "pk_live_1".toList = .ok st'
      ∧ st'.secretKey = "pk_live_1".toList
      ∧ st'.authUsername = "pk_live_1".toList
      ∧ st'.config = demoClient.config :=
  (c7_setApiKey_swaps_credential demoClient "pk_live_1".toList).1.mpr
    ⟨by decide, by decide⟩

/-- C10: constructing a BaseClient succeeds exactly when the key is a
non-empty string carrying the sk_ marker; in particular every pk_ key — which
setApiKey accepts — is rejected at construction time with the plain
Invalid secretKey error. -/
theorem c10_constructor_key_validation :
    (∀ (key : Str) (config : MagpieConfigInput),
        (∃ st, mkBaseClient key config = .ok st)
          ↔ (key ≠ [] ∧ "sk_".toList.isPrefixOf key = true))
    ∧ (∀ (rest : Str) (config : MagpieConfigInput),
        mkBaseClient ("pk_".toList ++ rest) config
          = .error (.plainError "Invalid secretKey"))
    ∧ (∀ (st : ClientState) (rest : Str),
        ∃ st', setApiKey st ("pk_".toList ++ rest) = .ok st') := by
  refine ⟨fun key config => ?_, fun rest config => ?_, fun st rest => ?_⟩
  · cases key with
    | nil => simp [mkBaseClient, jsTruthy]
    | cons c ks =>
      cases h2 : "sk_".toList.isPrefixOf (c :: ks) with
      | false =>
        unfold mkBaseClient
        rw [h2]
        simp [jsTruthy]
      | true =>
        unfold mkBaseClient
        rw [h2]
        simp [jsTruthy]
  · have hpk0 : "pk_".toList ++ rest = 'p' :: 'k' :: '_' :: rest := by
      simp [String.toList]
    have hsk : ("sk_".toList.isPrefixOf ('p' :: 'k' :: '_' :: rest)) = false := by
      simp [String.toList, List.isPrefixOf]
    rw [hpk0]
    unfold mkBaseClient
    rw [hsk]
    simp [jsTruthy]
  · have hpk0 : "pk_".toList ++ rest = 'p' :: 'k' :: '_' :: rest := by
      simp [String.toList]
    have hpk : "pk_".toList.isPrefixOf ('p' :: 'k' :: '_' :: rest) = true := by
      have h := isPrefixOf_append_self "pk_".toList rest
      rwa [hpk0] at h
    refine ⟨⟨'p' :: 'k' :: '_' :: rest, 'p' :: 'k' :: '_' :: rest, st.config⟩, ?_⟩
    rw [hpk0]
    unfold setApiKey
    rw [hpk]
    simp [jsTruthy]

theorem c10_constructor_key_validation_witness :
    ∃ st, mkBaseClient "sk_test_123".toList {} = .ok st :=
  (c10_constructor_key_validation.1 "sk_test_123".toList {}).mpr
    ⟨by decide, by decide⟩

/-! ### Backoff arithmetic (BaseClient.calculateRetryDelay) -/

/-- BaseClient.calculateRetryDelay over exact rationals: the exponential term
retryDelay times two to the retryCount minus one (an integer exponent, as in
Math.pow), plus a jitter of rand times one tenth of that term, capped at
30000 milliseconds.  Math.random() is impure and enters as the parameter
rand, ranging over zero inclusive to one exclusive. -/
def calculateRetryDelay (retryDelay : ℚ) (retryCount : ℕ) (rand : ℚ) : ℚ :=
  let exponentialDelay := retryDelay * (2 : ℚ) ^ ((retryCount : ℤ) - 1)
  let jitter := rand * (1 / 10) * exponentialDelay
  min (exponentialDelay + jitter) 30000

/-- C6 counterexample: with retryDelay 40000 and retryCount 1 (and zero
jitter), the computed delay is the 30000 cap, strictly below the exponential
term, so the claimed lower bound retryDelay times two to the n minus one
fails. -/
theorem c6_lower_bound_counterexample :
    calculateRetryDelay 40000 1 0 = 30000
    ∧ ¬ (40000 * (2 : ℚ) ^ ((1 : ℤ) - 1) ≤ calculateRetryDelay 40000 1 0) := by
  constructor <;> norm_num [calculateRetryDelay]

/-- C6 as amended: for every nonnegative retryDelay, retryCount at least one
and jitter fraction in the unit interval, the delay equals the capped
exponential-plus-jitter expression, is at most the cap of eleven tenths of
the exponential term, and is at least the cap of the exponential term itself
(the uncapped lower bound of the claim fails once the exponential term
exceeds 30000). -/
theorem c6_backoff_bounds (retryDelay : ℚ) (retryCount : ℕ) (rand : ℚ)
    (hrd : 0 ≤ retryDelay) (hn : 1 ≤ retryCount) (h0 : 0 ≤ rand)
    (h1 : rand < 1) :
    calculateRetryDelay retryDelay retryCount rand
        = min (retryDelay * (2 : ℚ) ^ ((retryCount : ℤ) - 1)
            + rand * (1 / 10) * (retryDelay * (2 : ℚ) ^ ((retryCount : ℤ) - 1))) 30000
    ∧ calculateRetryDelay retryDelay retryCount rand
        ≤ min (retryDelay * (2 : ℚ) ^ ((retryCount : ℤ) - 1) * (11 / 10)) 30000
    ∧ min (retryDelay * (2 : ℚ) ^ ((retryCount : ℤ) - 1)) 30000
        ≤ calculateRetryDelay retryDelay retryCount rand := by
  have hpow : (0 : ℚ) < (2 : ℚ) ^ ((retryCount : ℤ) - 1) := by positivity
  have he : 0 ≤ retryDelay * (2 : ℚ) ^ ((retryCount : ℤ) - 1) :=
    mul_nonneg hrd hpow.le
  refine ⟨rfl, ?_, ?_⟩
  · have hupper : retryDelay * (2 : ℚ) ^ ((retryCount : ℤ) - 1)
        + rand * (1 / 10) * (retryDelay * (2 : ℚ) ^ ((retryCount : ℤ) - 1))
        ≤ retryDelay * (2 : ℚ) ^ ((retryCount : ℤ) - 1) * (11 / 10) := by
      nlinarith [mul_nonneg (by linarith : (0 : ℚ) ≤ 1 - rand) he]
    exact min_le_min hupper le_rfl
  · have hlower : retryDelay * (2 : ℚ) ^ ((retryCount : ℤ) - 1)
        ≤ retryDelay * (2 : ℚ) ^ ((retryCount : ℤ) - 1)
          + rand * (1 / 10) * (retryDelay * (2 : ℚ) ^ ((retryCount : ℤ) - 1)) := by
      nlinarith [mul_nonneg h0 he]
    exact min_le_min hlower le_rfl

theorem c6_backoff_bounds_witness :
    (0 : ℚ) ≤ 1000 ∧ 1 ≤ 2 ∧ (0 : ℚ) ≤ 1 / 2 ∧ (1 / 2 : ℚ) < 1
    ∧ calculateRetryDelay 1000 2 (1 / 2)
        ≤ min (1000 * (2 : ℚ) ^ (((2 : ℕ) : ℤ) - 1) * (11 / 10)) 30000 :=
  ⟨by norm_num, by norm_num, by norm_num, by norm_num,
   (c6_backoff_bounds 1000 2 (1 / 2) (by norm_num) (by norm_num) (by norm_num)
     (by norm_num)).2.1⟩

end Magpie
